import Mathlib

/-!
Shallow embedding of the Vulkan learning application's device-selection and
initialization logic (src/application.h, src/application.cpp, src/main.cpp),
together with proofs of the specified properties.

External platform calls (device enumeration, queue-family queries, layer
enumeration, messenger creation results) are modelled as explicit inputs:
a physical device is represented by the queue-family property list the
platform would return for it, the available layers by a list of names, and
a creation attempt by its `VkResult`.
-/

namespace VulkanSpec

/-- VK_QUEUE_GRAPHICS_BIT, the graphics capability bit of a queue family's
`queueFlags` bitmask (value 0x00000001 in the Vulkan headers). -/
def VK_QUEUE_GRAPHICS_BIT : Nat := 1

/-- A queue family as returned by `vkGetPhysicalDeviceQueueFamilyProperties`.
Only the `queueFlags` bitmask is inspected by the code. -/
structure VkQueueFamilyProperties where
  queueFlags : Nat
deriving Repr, DecidableEq

/-- The C++ condition `next_queue_family.queueFlags & VK_QUEUE_GRAPHICS_BIT`
used as a truth value: the bitwise AND is nonzero. -/
def supports_graphics (qf : VkQueueFamilyProperties) : Bool :=
  qf.queueFlags &&& VK_QUEUE_GRAPHICS_BIT != 0

/-- A physical device, represented by the ordered queue-family sequence the
platform reports for it (the only data the selection code reads). -/
structure VkPhysicalDevice where
  queue_families : List VkQueueFamilyProperties
deriving Repr, DecidableEq

/-- `struct queue_family_indices` from src/application.h: one optional index
per capability. Default-constructed std::optional fields are empty. -/
structure queue_family_indices where
  graphics_family : Option Nat := none
  present_family : Option Nat := none
deriving Repr, DecidableEq

/-- `is_complete` from src/application.cpp:553-555:
`return queue_fam.graphics_family.has_value();`. -/
def is_complete (queue_fam : queue_family_indices) : Bool :=
  queue_fam.graphics_family.isSome

/-- The scan loop of `find_queue_families` (src/application.cpp:512-523):
`indices` is the accumulator, `i` the running index; a graphics-capable
family stores the current index, and the loop breaks once complete. -/
def find_queue_families_loop (indices : queue_family_indices) (i : Nat) :
    List VkQueueFamilyProperties → queue_family_indices
  | [] => indices
  | next_queue_family :: rest =>
    let indices' :=
      if supports_graphics next_queue_family then
        { indices with graphics_family := some i }
      else indices
    if is_complete indices' then indices'
    else find_queue_families_loop indices' (i + 1) rest

/-- `find_queue_families` from src/application.cpp:487-526: scan the
platform-returned queue families of a device, starting from a
default-constructed (all-empty) `queue_family_indices` and index 0. -/
def find_queue_families (device : VkPhysicalDevice) : queue_family_indices :=
  find_queue_families_loop {} 0 device.queue_families

/-- `is_device_suitable` from src/application.cpp:479-485. -/
def is_device_suitable (device : VkPhysicalDevice) : Bool :=
  is_complete (find_queue_families device)

/-- The `application` struct from src/application.h. Opaque platform handles
are modelled as `Nat` values; nullable handles (`window`,
`physical_device`) as options with `none` for NULL / VK_NULL_HANDLE. The
physical device is represented by its queue-family data. -/
structure application where
  window : Option Nat
  vulkan_instance : Nat
  surface : Nat
  debug_messenger : Nat
  physical_device : Option VkPhysicalDevice
  device : Nat
  graphics_queue : Nat
  present_queue : Nat
deriving Repr, DecidableEq

/-- Message of the `runtime_error` thrown at src/application.cpp:448. -/
def no_devices_message : String := "failed to find GPUs with Vulkan support!"

/-- Message of the `runtime_error` thrown at src/application.cpp:475. -/
def no_suitable_device_message : String := "failed to find a suitable GPU!"

/-- `pick_physical_device` from src/application.cpp:435-477. The devices the
platform enumeration would yield are an explicit input. The result is the
final application state paired with the thrown error message, if any:
zero devices throws immediately; otherwise the loop assigns the first
suitable device and the trailing VK_NULL_HANDLE check throws when
`physical_device` is still null. -/
def pick_physical_device (app : application) (devices : List VkPhysicalDevice) :
    application × Option String :=
  if devices.length = 0 then
    (app, some no_devices_message)
  else
    let app' :=
      match devices.find? is_device_suitable with
      | some device => { app with physical_device := some device }
      | none => app
    if app'.physical_device.isNone then
      (app', some no_suitable_device_message)
    else
      (app', none)

/-- `validation_layers` from src/application.cpp:44-46. -/
def validation_layers : List String := ["VK_LAYER_KHRONOS_validation"]

/-- `check_validation_layer_support` from src/application.cpp:211-249. The
layers enumerated by `vkEnumerateInstanceLayerProperties` are an explicit
input (their `layerName` strings). For each required layer the inner loop
looks for a `strcmp`-equal name; a missing one returns false early. -/
def check_validation_layer_support (available_layers : List String) : Bool :=
  validation_layers.all (fun vlayer =>
    available_layers.any (fun layer_properties => vlayer == layer_properties))

/-- Message of the `runtime_error` thrown at src/application.cpp:203. -/
def missing_layer_message : String :=
  "Validation layers requested, but not available!"

/-- The validation-layer guard at the top of `init_vulkan`
(src/application.cpp:201-204): throw exactly when validation layers are
enabled but unsupported. `enable_validation_layers` is the compile-time
NDEBUG switch, modelled as an input. -/
def init_vulkan_layer_check (enable_validation_layers : Bool)
    (available_layers : List String) : Except String Unit :=
  if enable_validation_layers && !check_validation_layer_support available_layers then
    .error missing_layer_message
  else
    .ok ()

/-- `VkResult` of a platform call: success or some error code. -/
inductive VkResult where
  | success
  | errorCode (code : Int)
deriving Repr, DecidableEq

/-- Message of the `runtime_error` thrown at src/application.cpp:431. -/
def messenger_failure_message : String := "failed to set up debug messenger!"

/-- Outcome of `setup_debug_messenger`: whether a creation attempt was made,
and the thrown error message, if any. -/
structure debug_messenger_outcome where
  attempted : Bool
  error : Option String
deriving Repr, DecidableEq

/-- `setup_debug_messenger` from src/application.cpp:403-433: return at once
when validation layers are disabled; otherwise attempt creation (whose
`VkResult` is an explicit input) and throw on anything but success. -/
def setup_debug_messenger (enable_validation_layers : Bool)
    (create_result : VkResult) : debug_messenger_outcome :=
  if !enable_validation_layers then
    { attempted := false, error := none }
  else if create_result != VkResult.success then
    { attempted := true, error := some messenger_failure_message }
  else
    { attempted := true, error := none }

/-- `main` from src/main.cpp:19-30, with `run_application`'s outcome as an
explicit input (normal return, or a thrown exception's `what()` message).
The result is the process exit code paired with the lines written to
standard error: success returns 0; a caught exception prints its message
to `cerr` and returns -1. -/
def main_result : Except String Unit → Int × List String
  | .ok _ => (0, [])
  | .error e => (-1, [e])

/-- Spec-side definition, following the spec's words for comparison with the
source's `is_complete`: the required capability fields of a Selection
Result under the current minimal policy (graphics-capable commands only),
as field accessors of `queue_family_indices`. -/
def spec_required_capability_fields : List (queue_family_indices → Option Nat) :=
  [queue_family_indices.graphics_family]

/-- Spec-side definition, following the spec's words: completeness as a
conjunction over all required capability fields being present. -/
def spec_is_complete (queue_fam : queue_family_indices) : Bool :=
  spec_required_capability_fields.all (fun field => (field queue_fam).isSome)

/-- A queue family with only the graphics bit set. -/
def sample_graphics_family : VkQueueFamilyProperties := { queueFlags := 1 }

/-- A queue family with only the compute bit (0x2) set, not graphics. -/
def sample_compute_family : VkQueueFamilyProperties := { queueFlags := 2 }

/-- A device whose second queue family is graphics-capable. -/
def sample_suitable_device : VkPhysicalDevice :=
  { queue_families := [sample_compute_family, sample_graphics_family] }

/-- A device with no graphics-capable queue family. -/
def sample_unsuitable_device : VkPhysicalDevice :=
  { queue_families := [sample_compute_family] }

/-- A freshly constructed application state (src/application.cpp:170-174:
`window = NULL`, `physical_device = VK_NULL_HANDLE`). -/
def sample_app : application :=
  { window := none, vulkan_instance := 7, surface := 8, debug_messenger := 9
    physical_device := none, device := 10, graphics_queue := 11
    present_queue := 12 }

/-!
Helper lemmas about the `find_queue_families` scan loop.
-/

/-- The loop yields a resolved `graphics_family` exactly when it started with
one or some scanned family is graphics-capable. -/
theorem find_queue_families_loop_graphics_isSome
    (l : List VkQueueFamilyProperties) :
    ∀ (indices : queue_family_indices) (i : Nat),
    (find_queue_families_loop indices i l).graphics_family.isSome =
      (indices.graphics_family.isSome || l.any supports_graphics) := by
  induction l with
  | nil => intro indices i; simp [find_queue_families_loop]
  | cons qf rest ih =>
    intro indices i
    by_cases hqf : supports_graphics qf
    · simp [find_queue_families_loop, hqf, is_complete]
    · by_cases hc : indices.graphics_family.isSome
      · simp [find_queue_families_loop, hqf, is_complete, hc]
      · simp only [Bool.not_eq_true] at hc
        simp [find_queue_families_loop, hqf, is_complete, hc, ih]

/-- Starting from an unresolved `graphics_family` at running index `i`, a
recorded index `k` is `i` plus the offset of the first graphics-capable
family in the remaining list. -/
theorem find_queue_families_loop_graphics_eq_some
    (l : List VkQueueFamilyProperties) :
    ∀ (i k : Nat) (pf : Option Nat),
    (find_queue_families_loop
        { graphics_family := none, present_family := pf } i l).graphics_family =
      some k →
    ∃ j, ∃ hj : j < l.length, k = i + j ∧
      supports_graphics (l[j]) = true ∧
      ∀ m, ∀ hm : m < l.length, m < j → supports_graphics (l[m]) = false := by
  induction l with
  | nil => intro i k pf h; simp [find_queue_families_loop] at h
  | cons qf rest ih =>
    intro i k pf h
    by_cases hqf : supports_graphics qf
    · simp [find_queue_families_loop, hqf, is_complete] at h
      refine ⟨0, by simp, by omega, by simpa using hqf, ?_⟩
      intro m hm hmj
      omega
    · simp only [find_queue_families_loop, hqf, if_false, is_complete,
        Option.isSome_none, if_neg Bool.false_ne_true] at h
      obtain ⟨j, hj, hk, hbit, hmin⟩ := ih (i + 1) k pf h
      refine ⟨j + 1, by simpa using Nat.succ_lt_succ hj, by omega,
        by simpa using hbit, ?_⟩
      intro m hm hmj
      match m with
      | 0 => simpa using hqf
      | Nat.succ m =>
        have hm' : m < rest.length := by simpa using hm
        simpa using hmin m hm' (by omega)

/-- Claim C1: for every Selection Result (`queue_family_indices` value),
`is_complete` returns true iff every required capability field (under the
current minimal policy: the graphics index) is present; completeness
coincides with the conjunction over all required capability fields. -/
theorem C1_is_complete_iff_required_fields_present
    (result : queue_family_indices) :
    (is_complete result = true ↔
      ∀ field ∈ spec_required_capability_fields, (field result).isSome = true) ∧
    is_complete result = spec_is_complete result := by
  constructor
  · simp [is_complete, spec_required_capability_fields]
  · simp [is_complete, spec_is_complete, spec_required_capability_fields]

/-- Witness for C1 at a concrete Selection Result. -/
theorem C1_witness :
    (is_complete { graphics_family := some 1, present_family := none } = true ↔
      ∀ field ∈ spec_required_capability_fields,
        (field { graphics_family := some 1, present_family := none }).isSome = true) ∧
    is_complete { graphics_family := some 1, present_family := none } =
      spec_is_complete { graphics_family := some 1, present_family := none } :=
  C1_is_complete_iff_required_fields_present
    { graphics_family := some 1, present_family := none }

/-- Claim C10: `is_complete` depends only on the `graphics_family` field, and
equals `graphics_family.has_value()`. -/
theorem C10_is_complete_depends_only_on_graphics_family :
    (∀ q1 q2 : queue_family_indices, q1.graphics_family = q2.graphics_family →
      is_complete q1 = is_complete q2) ∧
    ∀ q : queue_family_indices, is_complete q = q.graphics_family.isSome := by
  constructor
  · intro q1 q2 h
    simp [is_complete, h]
  · intro q
    rfl

/-- Witness for C10: two Selection Results agreeing on `graphics_family` but
differing on `present_family` get the same completeness verdict. -/
theorem C10_witness :
    is_complete { graphics_family := some 0, present_family := none } =
      is_complete { graphics_family := some 0, present_family := some 5 } ∧
    is_complete { graphics_family := some 0, present_family := none } =
      (queue_family_indices.graphics_family
        { graphics_family := some 0, present_family := none }).isSome :=
  ⟨C10_is_complete_depends_only_on_graphics_family.1
      { graphics_family := some 0, present_family := none }
      { graphics_family := some 0, present_family := some 5 } rfl,
    C10_is_complete_depends_only_on_graphics_family.2
      { graphics_family := some 0, present_family := none }⟩

/-- Claim C4: under the minimal policy, a device is suitable iff at least one
of its queue families has the graphics capability bit set. -/
theorem C4_suitable_iff_graphics_capable_family (device : VkPhysicalDevice) :
    is_device_suitable device = true ↔
      ∃ qf ∈ device.queue_families, qf.queueFlags &&& VK_QUEUE_GRAPHICS_BIT ≠ 0 := by
  unfold is_device_suitable is_complete find_queue_families
  rw [find_queue_families_loop_graphics_isSome]
  simp [supports_graphics, List.any_eq_true]

/-- Witness for C4 at a device whose second family is graphics-capable. -/
theorem C4_witness :
    is_device_suitable sample_suitable_device = true ↔
      ∃ qf ∈ sample_suitable_device.queue_families,
        qf.queueFlags &&& VK_QUEUE_GRAPHICS_BIT ≠ 0 :=
  C4_suitable_iff_graphics_capable_family sample_suitable_device

/-- Claim C5: for a device with a graphics-capable queue family, the recorded
`graphics_family` index is the position of the matching entry in the
platform-returned sequence (here the first matching position). -/
theorem C5_recorded_index_is_matching_position (device : VkPhysicalDevice)
    (hex : ∃ qf ∈ device.queue_families,
      qf.queueFlags &&& VK_QUEUE_GRAPHICS_BIT ≠ 0) :
    ∃ k, ∃ hk : k < device.queue_families.length,
      (find_queue_families device).graphics_family = some k ∧
      supports_graphics (device.queue_families[k]) = true ∧
      ∀ m, ∀ hm : m < device.queue_families.length, m < k →
        supports_graphics (device.queue_families[m]) = false := by
  have hsome : (find_queue_families device).graphics_family.isSome = true := by
    unfold find_queue_families
    rw [find_queue_families_loop_graphics_isSome]
    simp only [Bool.or_eq_true, List.any_eq_true]
    right
    obtain ⟨qf, hmem, hbit⟩ := hex
    exact ⟨qf, hmem, by simpa [supports_graphics] using hbit⟩
  obtain ⟨k, hkeq⟩ := Option.isSome_iff_exists.mp hsome
  obtain ⟨j, hj, hkj, hbit, hmin⟩ :=
    find_queue_families_loop_graphics_eq_some device.queue_families 0 k none hkeq
  have hjk : k = j := by omega
  subst hjk
  exact ⟨k, hj, hkeq, hbit, hmin⟩

/-- Witness for C5 at a device whose first graphics-capable family sits at
position 1. -/
theorem C5_witness :
    (∃ qf ∈ sample_suitable_device.queue_families,
      qf.queueFlags &&& VK_QUEUE_GRAPHICS_BIT ≠ 0) ∧
    ∃ k, ∃ hk : k < sample_suitable_device.queue_families.length,
      (find_queue_families sample_suitable_device).graphics_family = some k ∧
      supports_graphics (sample_suitable_device.queue_families[k]) = true ∧
      ∀ m, ∀ hm : m < sample_suitable_device.queue_families.length, m < k →
        supports_graphics (sample_suitable_device.queue_families[m]) = false :=
  ⟨by decide, C5_recorded_index_is_matching_position sample_suitable_device (by decide)⟩

/-- Claim C6: initialization raises the missing-layer error exactly when
validation layers are enabled and some required layer is unsupported; and
`check_validation_layer_support` holds iff every required layer name
appears among the available layer names. -/
theorem C6_layer_check_iff (enable : Bool) (available_layers : List String) :
    (init_vulkan_layer_check enable available_layers = .error missing_layer_message ↔
      enable = true ∧ check_validation_layer_support available_layers = false) ∧
    (check_validation_layer_support available_layers = true ↔
      ∀ vlayer ∈ validation_layers, vlayer ∈ available_layers) := by
  constructor
  · unfold init_vulkan_layer_check
    cases enable <;>
      cases hcv : check_validation_layer_support available_layers <;>
        simp [hcv]
  · simp only [check_validation_layer_support, List.all_eq_true, List.any_eq_true,
      beq_iff_eq]
    constructor
    · intro h vlayer hv
      obtain ⟨layer, hmem, heq⟩ := h vlayer hv
      exact heq ▸ hmem
    · intro h vlayer hv
      exact ⟨vlayer, h vlayer hv, rfl⟩

/-- Witness for C6: with validation enabled and no available layers, the
required layer is missing and the error is raised. -/
theorem C6_witness :
    (init_vulkan_layer_check true [] = .error missing_layer_message ↔
      true = true ∧ check_validation_layer_support [] = false) ∧
    (check_validation_layer_support [] = true ↔
      ∀ vlayer ∈ validation_layers, vlayer ∈ ([] : List String)) :=
  C6_layer_check_iff true []

/-- Claim C7: a failed messenger creation is fatal iff validation layers were
requested; with them disabled, no creation attempt is made and no error is
raised. -/
theorem C7_messenger_failure_fatal_iff_requested (enable : Bool) (r : VkResult) :
    ((setup_debug_messenger enable r).error.isSome = true ↔
      enable = true ∧ r ≠ VkResult.success) ∧
    (enable = false →
      setup_debug_messenger enable r = { attempted := false, error := none }) := by
  cases enable <;> cases r <;> simp [setup_debug_messenger]

/-- Witness for C7: with validation disabled, even a failing creation result
yields no attempt and no error. -/
theorem C7_witness :
    ((setup_debug_messenger false (VkResult.errorCode (-7))).error.isSome = true ↔
      false = true ∧ VkResult.errorCode (-7) ≠ VkResult.success) ∧
    (false = false →
      setup_debug_messenger false (VkResult.errorCode (-7)) =
        { attempted := false, error := none }) :=
  C7_messenger_failure_fatal_iff_requested false (VkResult.errorCode (-7))

/-- Claim C8: the process exits 0 exactly on success, and an uncaught failure
puts its message on standard error and exits nonzero. -/
theorem C8_exit_codes (outcome : Except String Unit) :
    (main_result outcome = (0, []) ↔ outcome = .ok ()) ∧
    ∀ msg, outcome = .error msg →
      (main_result outcome).1 ≠ 0 ∧ msg ∈ (main_result outcome).2 := by
  cases outcome with
  | ok u =>
    cases u
    refine ⟨by simp [main_result], ?_⟩
    intro msg h
    exact absurd h (by simp)
  | error e =>
    constructor
    · simp [main_result]
    · intro msg h
      rw [Except.error.injEq] at h
      subst h
      refine ⟨by simp [main_result], by simp [main_result]⟩

/-- Witness for C8 at the no-suitable-GPU failure. -/
theorem C8_witness :
    (main_result (.error no_suitable_device_message) = (0, []) ↔
      (.error no_suitable_device_message : Except String Unit) = .ok ()) ∧
    ∀ msg, (.error no_suitable_device_message : Except String Unit) = .error msg →
      (main_result (.error no_suitable_device_message)).1 ≠ 0 ∧
        msg ∈ (main_result (.error no_suitable_device_message)).2 :=
  C8_exit_codes (.error no_suitable_device_message)

/-- Claim C2 counterexample: the empty device sequence does NOT raise the same
error as a non-empty sequence with no suitable device — the zero-device
case is special-cased with a distinct message before the scan. -/
theorem C2_counterexample :
    (pick_physical_device sample_app []).2 = some no_devices_message ∧
    (pick_physical_device sample_app [sample_unsuitable_device]).2 =
      some no_suitable_device_message ∧
    no_devices_message ≠ no_suitable_device_message := by
  refine ⟨rfl, rfl, ?_⟩
  decide

/-- Claim C2 (amended): a device sequence with no suitable device always makes
`pick_physical_device` raise an error, but the empty sequence raises the
distinct no-devices error while a non-empty one raises the
no-suitable-device error. -/
theorem C2_no_suitable_device_error (app : application)
    (devices : List VkPhysicalDevice)
    (happ : app.physical_device = none)
    (hno : ∀ d ∈ devices, is_device_suitable d = false) :
    (pick_physical_device app devices).2.isSome = true ∧
    (devices = [] →
      (pick_physical_device app devices).2 = some no_devices_message) ∧
    (devices ≠ [] →
      (pick_physical_device app devices).2 = some no_suitable_device_message) := by
  have hfind : devices.find? is_device_suitable = none :=
    List.find?_eq_none.mpr (fun d hd => by simp [hno d hd])
  cases devices with
  | nil => simp [pick_physical_device]
  | cons d rest =>
    refine ⟨?_, by intro h; exact absurd h (by simp), ?_⟩ <;>
      simp [pick_physical_device, hfind, happ]

/-- Witness for the amended C2 at a concrete unsuitable device list. -/
theorem C2_witness :
    sample_app.physical_device = none ∧
    (∀ d ∈ [sample_unsuitable_device], is_device_suitable d = false) ∧
    ((pick_physical_device sample_app [sample_unsuitable_device]).2.isSome = true ∧
      ([sample_unsuitable_device] = ([] : List VkPhysicalDevice) →
        (pick_physical_device sample_app [sample_unsuitable_device]).2 =
          some no_devices_message) ∧
      ([sample_unsuitable_device] ≠ ([] : List VkPhysicalDevice) →
        (pick_physical_device sample_app [sample_unsuitable_device]).2 =
          some no_suitable_device_message)) :=
  ⟨rfl, by decide,
    C2_no_suitable_device_error sample_app [sample_unsuitable_device] rfl (by decide)⟩

/-- Claim C3: when some device in the sequence is suitable, selection succeeds
and returns the earliest suitable device in enumeration order: the chosen
position is at most any suitable position, and all earlier positions are
unsuitable. -/
theorem C3_first_match_wins (app : application)
    (devices : List VkPhysicalDevice) (i : Nat) (hi : i < devices.length)
    (hsuit : is_device_suitable (devices[i]) = true) :
    ∃ k, ∃ hk : k < devices.length, k ≤ i ∧
      (pick_physical_device app devices).2 = none ∧
      (pick_physical_device app devices).1.physical_device = some (devices[k]) ∧
      is_device_suitable (devices[k]) = true ∧
      ∀ m, ∀ hm : m < devices.length, m < k →
        is_device_suitable (devices[m]) = false := by
  have hne : devices.find? is_device_suitable ≠ none := by
    intro hnone
    have hall := List.find?_eq_none.mp hnone
    exact absurd hsuit (by simp [hall _ (List.getElem_mem hi)])
  obtain ⟨b, hb⟩ := Option.ne_none_iff_exists'.mp hne
  obtain ⟨hpb, k, hk, hbk, hmin⟩ := List.find?_eq_some_iff_getElem.mp hb
  have hmin' : ∀ m, ∀ hm : m < devices.length, m < k →
      is_device_suitable (devices[m]) = false := by
    intro m hm hmk
    have := hmin m hmk
    simpa using this
  have hki : k ≤ i := by
    by_contra hgt
    exact absurd hsuit (by simp [hmin' i hi (by omega)])
  have hlen : ¬ devices.length = 0 := by omega
  refine ⟨k, hk, hki, ?_, ?_, hbk ▸ hpb, hmin'⟩ <;>
    simp [pick_physical_device, hlen, hb, hbk]

/-- Witness for C3: with an unsuitable device at position 0 and a suitable one
at position 1, the selected device is the one at position 1. -/
theorem C3_witness :
    1 < ([sample_unsuitable_device, sample_suitable_device] : List VkPhysicalDevice).length ∧
    is_device_suitable ([sample_unsuitable_device, sample_suitable_device][1]) = true ∧
    ∃ k, ∃ hk : k < ([sample_unsuitable_device, sample_suitable_device] : List VkPhysicalDevice).length,
      k ≤ 1 ∧
      (pick_physical_device sample_app [sample_unsuitable_device, sample_suitable_device]).2 = none ∧
      (pick_physical_device sample_app
          [sample_unsuitable_device, sample_suitable_device]).1.physical_device =
        some ([sample_unsuitable_device, sample_suitable_device][k]) ∧
      is_device_suitable ([sample_unsuitable_device, sample_suitable_device][k]) = true ∧
      ∀ m, ∀ hm : m < ([sample_unsuitable_device, sample_suitable_device] : List VkPhysicalDevice).length,
        m < k →
        is_device_suitable ([sample_unsuitable_device, sample_suitable_device][m]) = false :=
  ⟨by decide, by decide,
    C3_first_match_wins sample_app [sample_unsuitable_device, sample_suitable_device]
      1 (by decide) (by decide)⟩

/-- Claim C9: `pick_physical_device` changes only the `physical_device` field;
every other field of the application is unchanged, and when an error is
signalled the whole state — in particular the null `physical_device` — is
unchanged. -/
theorem C9_pick_physical_device_frame (app : application)
    (devices : List VkPhysicalDevice) :
    ((pick_physical_device app devices).1.window = app.window ∧
      (pick_physical_device app devices).1.vulkan_instance = app.vulkan_instance ∧
      (pick_physical_device app devices).1.surface = app.surface ∧
      (pick_physical_device app devices).1.debug_messenger = app.debug_messenger ∧
      (pick_physical_device app devices).1.device = app.device ∧
      (pick_physical_device app devices).1.graphics_queue = app.graphics_queue ∧
      (pick_physical_device app devices).1.present_queue = app.present_queue) ∧
    ((pick_physical_device app devices).2.isSome = true →
      (pick_physical_device app devices).1 = app) ∧
    ((pick_physical_device app devices).2.isSome = true →
      app.physical_device = none →
      (pick_physical_device app devices).1.physical_device = none) := by
  by_cases hlen : devices.length = 0
  · simp [pick_physical_device, hlen]
  · cases hfind : devices.find? is_device_suitable with
    | none =>
      by_cases hpd : app.physical_device.isNone <;>
        simp [pick_physical_device, hlen, hfind, hpd]
    | some d =>
      simp [pick_physical_device, hlen, hfind]

/-- Witness for C9 at the empty device list, where an error is signalled and
the state is untouched. -/
theorem C9_witness :
    ((pick_physical_device sample_app []).1.window = sample_app.window ∧
      (pick_physical_device sample_app []).1.vulkan_instance = sample_app.vulkan_instance ∧
      (pick_physical_device sample_app []).1.surface = sample_app.surface ∧
      (pick_physical_device sample_app []).1.debug_messenger = sample_app.debug_messenger ∧
      (pick_physical_device sample_app []).1.device = sample_app.device ∧
      (pick_physical_device sample_app []).1.graphics_queue = sample_app.graphics_queue ∧
      (pick_physical_device sample_app []).1.present_queue = sample_app.present_queue) ∧
    ((pick_physical_device sample_app []).2.isSome = true →
      (pick_physical_device sample_app []).1 = sample_app) ∧
    ((pick_physical_device sample_app []).2.isSome = true →
      sample_app.physical_device = none →
      (pick_physical_device sample_app []).1.physical_device = none) :=
  C9_pick_physical_device_frame sample_app []

end VulkanSpec
